import Mathlib

/-!
Verification of the splitanalysisbets betting bots (soccer_bot and nba_bot).

Python floating-point numbers are idealised as exact rationals (for purely
arithmetic code) or reals (for code involving the transcendental 10 ** x of
the Elo logistic).  Decimal literals of the source (0.4, 33.33, ...)
denote the corresponding exact rationals.  Fallible Python code (raising
ZeroDivisionError or ValueError) is embedded with Option / Except.
-/

set_option maxHeartbeats 1000000

namespace Soccer

/-- soccer_bot/config.py: MIN_PROBABILITY = 5.0. -/
def MIN_PROBABILITY : ℝ := 5

/-- soccer_bot/config.py: MAX_PROBABILITY = 85.0. -/
def MAX_PROBABILITY : ℝ := 85

/-- soccer_bot/config.py: MAX_STAKE_PERCENT = 5.0 (same value in nba_bot/config.py). -/
def MAX_STAKE_PERCENT : ℚ := 5

/-- soccer_bot/probability.py, normalize_probabilities: normalize three
probabilities to sum to 100, returning the uniform 33.33 split when the
total is zero.  The dict result is embedded as the (home, draw, away) triple. -/
def normalize_probabilities (home_prob draw_prob away_prob : ℚ) : ℚ × ℚ × ℚ :=
  let total := home_prob + draw_prob + away_prob
  if total = 0 then (33.33, 33.33, 33.33)
  else (home_prob / total * 100, draw_prob / total * 100, away_prob / total * 100)

/-- soccer_bot/probability.py, remove_bookmaker_margin: if the input total is
at most 100 the probabilities are returned unchanged, otherwise they are
scaled down to sum to 100. -/
def remove_bookmaker_margin (home_prob draw_prob away_prob : ℚ) : ℚ × ℚ × ℚ :=
  let total := home_prob + draw_prob + away_prob
  if total ≤ 100 then (home_prob, draw_prob, away_prob)
  else (home_prob / total * 100, draw_prob / total * 100, away_prob / total * 100)

/-- soccer_bot/betting.py, kelly_criterion (nba_bot/betting.py defines the
identical function).  The optional fraction argument (defaulting to the
configured KELLY_FRACTION) is made explicit. -/
def kelly_criterion (probability odds fraction : ℚ) : ℚ :=
  if probability ≤ 0 ∨ 1 ≤ probability ∨ odds ≤ 1 then 0
  else
    let b := odds - 1
    let q := 1 - probability
    let kelly_fraction := (b * probability - q) / b * fraction
    if kelly_fraction ≤ 0 then 0
    else min kelly_fraction (MAX_STAKE_PERCENT / 100)

end Soccer

namespace NBA

/-- nba_bot/probability.py, moneyline_to_implied_prob: American moneyline to
implied probability in percent; the ml = 0 case returns 0. -/
def moneyline_to_implied_prob (ml : ℚ) : ℚ :=
  if ml = 0 then 0
  else if ml > 0 then 100 / (ml + 100) * 100
  else |ml| / (|ml| + 100) * 100

/-- nba_bot/probability.py, decimal_to_implied_prob. -/
def decimal_to_implied_prob (odds : ℚ) : ℚ :=
  if odds ≤ 1 then 0 else 1 / odds * 100

/-- nba_bot/probability.py, remove_vig_two_way: the dict result is embedded
as the (home, away) pair. -/
def remove_vig_two_way (home_prob away_prob : ℚ) : ℚ × ℚ :=
  let total := home_prob + away_prob
  if total ≤ 0 then (50, 50)
  else (home_prob / total * 100, away_prob / total * 100)

/-- nba_bot/bot.py, _ml_to_decimal: converts an American moneyline to decimal
odds.  For ml ≤ 0 the source divides 100 by abs(ml); at ml = 0 this raises
ZeroDivisionError in Python, embedded here as none. -/
def _ml_to_decimal (ml : ℚ) : Option ℚ :=
  if ml > 0 then some (1 + ml / 100)
  else if |ml| = 0 then none
  else some (1 + 100 / |ml|)

end NBA

namespace Soccer

/-- soccer_bot/config.py: ELO_K_FACTOR = 32. -/
def ELO_K_FACTOR : ℝ := 32

/-- soccer_bot/config.py: INITIAL_ELO = 1500. -/
def INITIAL_ELO : ℝ := 1500

/-- soccer_bot/config.py: HOME_ADVANTAGE_ELO = 70. -/
def HOME_ADVANTAGE_ELO : ℝ := 70

/-- soccer_bot/config.py: MARKET_SHRINK_FACTOR = 0.4. -/
def MARKET_SHRINK_FACTOR : ℝ := 0.4

/-- The TeamRatings.ratings dict of soccer_bot/model.py, embedded as a
partial map from team names to Elo ratings. -/
abbrev Ratings : Type := String → Option ℝ

/-- TeamRatings.get_rating: look a team up, with the initial rating for new
teams.  (The source also inserts the initial rating into the dict on a miss;
that write never changes the value any later lookup observes, so the map
itself is threaded unchanged here.) -/
def get_rating (r : Ratings) (team_name : String) : ℝ :=
  (r team_name).getD INITIAL_ELO

/-- TeamRatings.update_rating: functional update of the ratings dict. -/
def update_rating (r : Ratings) (team_name : String) (new_rating : ℝ) : Ratings :=
  fun t => if t = team_name then some new_rating else r t

/-- TeamRatings.expected_score: the standard Elo logistic
1 / (1 + 10 ** ((rating_b - rating_a) / 400)). -/
noncomputable def expected_score (rating_a rating_b : ℝ) : ℝ :=
  1 / (1 + (10 : ℝ) ^ ((rating_b - rating_a) / 400))

/-- TeamRatings.update_ratings_after_match: both new ratings are computed
from the pre-match ratings (both dict reads happen before either write),
then written back. -/
noncomputable def update_ratings_after_match (r : Ratings)
    (home_team away_team : String) (home_score away_score : ℤ) : Ratings :=
  let home_rating := get_rating r home_team
  let away_rating := get_rating r away_team
  let home_expected := expected_score home_rating away_rating
  let away_expected := 1 - home_expected
  let actual : ℝ × ℝ :=
    if home_score > away_score then (1, 0)
    else if home_score < away_score then (0, 1)
    else (0.5, 0.5)
  let new_home_rating := home_rating + ELO_K_FACTOR * (actual.1 - home_expected)
  let new_away_rating := away_rating + ELO_K_FACTOR * (actual.2 - away_expected)
  update_rating (update_rating r home_team new_home_rating) away_team new_away_rating

end Soccer

namespace NBAElo

/-- nba_bot/elo.py, expected_score: expected home win probability with the
home-court advantage folded into the exponent. -/
noncomputable def expected_score (r_home r_away : ℝ) (home_adv : ℝ) : ℝ :=
  1 / (1 + (10 : ℝ) ^ (-((r_home + home_adv - r_away) / 400)))

/-- nba_bot/elo.py, update_elo: one Elo update after a game, returning the
pair of new ratings; both are computed from the pre-game ratings. -/
noncomputable def update_elo (r_home r_away : ℝ) (home_won : Bool)
    (k home_adv : ℝ) : ℝ × ℝ :=
  let e_home := expected_score r_home r_away home_adv
  let s_home : ℝ := if home_won then 1 else 0
  (r_home + k * (s_home - e_home), r_away + k * ((1 - s_home) - (1 - e_home)))

end NBAElo

namespace PyStr

/-- The whitespace characters recognised by Python str.split and str.strip
(space, tab, newline, carriage return, vertical tab, form feed; further
unicode space characters are not exercised by this code base). -/
def pyIsSpace (c : Char) : Bool :=
  c == ' ' || c == '\t' || c == '\n' || c == '\r' ||
    c == Char.ofNat 11 || c == Char.ofNat 12

/-- Python str.split() with no argument: split on runs of whitespace and
drop empty fields. -/
def pyWords (l : List Char) : List (List Char) :=
  (l.splitOnP pyIsSpace).filter (fun w => !w.isEmpty)

/-- Python (single space).join applied to a list of words. -/
def joinSp : List (List Char) → List Char
  | [] => []
  | [w] => w
  | w :: v :: ws => w ++ ' ' :: joinSp (v :: ws)

/-- Python str.strip(): remove leading and trailing whitespace. -/
def pyStrip (l : List Char) : List Char :=
  ((l.dropWhile pyIsSpace).reverse.dropWhile pyIsSpace).reverse

/-- The whitespace collapse of nba_bot/model.py normalize_team_name:
n = a single space joining name.strip().split(). -/
def pyCollapse (l : List Char) : List Char := joinSp (pyWords (pyStrip l))

/-- Python str.lower restricted to ASCII (every alias key of the table in
nba_bot/model.py is plain ASCII, so the lookups below agree with Python). -/
def pyLower (l : List Char) : List Char := l.map Char.toLower

end PyStr

namespace NBA

/-- The aliases dict of nba_bot/model.py normalize_team_name, in source
order (the keys are pairwise distinct, so first-match lookup agrees with
the Python dict). -/
def aliases : List (String × String) := [
  (("la lakers"), ("Los Angeles Lakers")),
  (("la clippers"), ("Los Angeles Clippers")),
  (("gs warriors"), ("Golden State Warriors")),
  (("ny knicks"), ("New York Knicks")),
  (("no pelicans"), ("New Orleans Pelicans")),
  (("new orleans"), ("New Orleans Pelicans")),
  (("new orleans pelicans"), ("New Orleans Pelicans")),
  (("pelicans"), ("New Orleans Pelicans")),
  (("nola"), ("New Orleans Pelicans")),
  (("76ers"), ("Philadelphia 76ers")),
  (("sixers"), ("Philadelphia 76ers")),
  (("philadelphia"), ("Philadelphia 76ers")),
  (("philadelphia 76ers"), ("Philadelphia 76ers")),
  (("spurs"), ("San Antonio Spurs")),
  (("lakers"), ("Los Angeles Lakers")),
  (("clippers"), ("Los Angeles Clippers")),
  (("warriors"), ("Golden State Warriors")),
  (("thunder"), ("Oklahoma City Thunder")),
  (("knicks"), ("New York Knicks")),
  (("suns"), ("Phoenix Suns")),
  (("blazers"), ("Portland Trail Blazers")),
  (("trail blazers"), ("Portland Trail Blazers")),
  (("wolves"), ("Minnesota Timberwolves")),
  (("timberwolves"), ("Minnesota Timberwolves")),
  (("cavs"), ("Cleveland Cavaliers")),
  (("mavs"), ("Dallas Mavericks")),
  (("atl"), ("Atlanta Hawks")),
  (("bos"), ("Boston Celtics")),
  (("brk"), ("Brooklyn Nets")),
  (("bkn"), ("Brooklyn Nets")),
  (("chi"), ("Chicago Bulls")),
  (("cho"), ("Charlotte Hornets")),
  (("cha"), ("Charlotte Hornets")),
  (("cle"), ("Cleveland Cavaliers")),
  (("dal"), ("Dallas Mavericks")),
  (("den"), ("Denver Nuggets")),
  (("det"), ("Detroit Pistons")),
  (("gsw"), ("Golden State Warriors")),
  (("hou"), ("Houston Rockets")),
  (("ind"), ("Indiana Pacers")),
  (("lac"), ("Los Angeles Clippers")),
  (("lal"), ("Los Angeles Lakers")),
  (("mem"), ("Memphis Grizzlies")),
  (("mia"), ("Miami Heat")),
  (("mil"), ("Milwaukee Bucks")),
  (("min"), ("Minnesota Timberwolves")),
  (("nop"), ("New Orleans Pelicans")),
  (("no"), ("New Orleans Pelicans")),
  (("nor"), ("New Orleans Pelicans")),
  (("nyk"), ("New York Knicks")),
  (("okc"), ("Oklahoma City Thunder")),
  (("orl"), ("Orlando Magic")),
  (("phi"), ("Philadelphia 76ers")),
  (("pho"), ("Phoenix Suns")),
  (("phx"), ("Phoenix Suns")),
  (("por"), ("Portland Trail Blazers")),
  (("sac"), ("Sacramento Kings")),
  (("sas"), ("San Antonio Spurs")),
  (("tor"), ("Toronto Raptors")),
  (("uta"), ("Utah Jazz")),
  (("was"), ("Washington Wizards"))]

/-- The alias table over character lists, for the lookup on the lowercased
collapsed name. -/
def aliasesL : List (List Char × List Char) :=
  aliases.map (fun kv => (kv.1.data, kv.2.data))

/-- nba_bot/model.py, normalize_team_name on the character-list model of
Python strings: empty (falsy) input maps to the empty string; otherwise
whitespace is collapsed and the lowercased result is looked up in the alias
table (every canonical value is nonempty, so Python's truthiness test on the
dict lookup is exactly the option match). -/
def normalizeL (s : List Char) : List Char :=
  if s.isEmpty then []
  else
    match aliasesL.lookup (PyStr.pyLower (PyStr.pyCollapse s)) with
    | some canonical => canonical
    | none => PyStr.pyCollapse s

/-- nba_bot/model.py, normalize_team_name, as a function on Lean strings. -/
def normalize_team_name (s : String) : String := String.mk (normalizeL s.data)

end NBA

namespace NBA

/-- nba_bot/config.py: HOME_COURT_ELO = 50. -/
def HOME_COURT_ELO : ℝ := 50

/-- nba_bot/config.py: REST_ELO_PER_DAY = 15. -/
def REST_ELO_PER_DAY : ℝ := 15

/-- nba_bot/config.py: B2B_PENALTY_ELO = 30. -/
def B2B_PENALTY_ELO : ℝ := 30

/-- nba_bot/config.py: STAR_OUT_PENALTY_ELO = 50. -/
def STAR_OUT_PENALTY_ELO : ℝ := 50

/-- nba_bot/config.py: INITIAL_ELO = 1500. -/
def INITIAL_ELO : ℝ := 1500

/-- nba_bot/config.py: MARKET_SHRINK_FACTOR = 0.3. -/
def MARKET_SHRINK_FACTOR : ℝ := 0.3

/-- nba_bot/config.py: MIN_PROBABILITY = 5.0. -/
def MIN_PROBABILITY : ℝ := 5

/-- nba_bot/config.py: MAX_PROBABILITY = 95.0. -/
def MAX_PROBABILITY : ℝ := 95

/-- The NBATeamRatings.ratings dict of nba_bot/model.py: a partial map from
canonical team names to Elo ratings. -/
abbrev RatingsMap : Type := String → Option ℝ

/-- NBATeamRatings.get_rating: lookups go through normalize_team_name and
fall back to the initial rating for unknown teams.  (As in the soccer bot,
the source inserts the default on a miss; the inserted value equals the
default returned here, so no later lookup can tell the difference.) -/
def get_rating (m : RatingsMap) (team_name : String) : ℝ :=
  (m (normalize_team_name team_name)).getD INITIAL_ELO

/-- NBATeamRatings.expected_score: the standard Elo logistic. -/
noncomputable def expected_score (rating_a rating_b : ℝ) : ℝ :=
  1 / (1 + (10 : ℝ) ^ ((rating_b - rating_a) / 400))

/-- The dict returned by NBAModel._compute_adjusted_ratings. -/
structure AdjustedRatings where
  home_rating : ℝ
  away_rating : ℝ
  adj_home_rating : ℝ
  adj_away_rating : ℝ
  elo_diff : ℝ
  home_win_p_raw : ℝ

/-- NBAModel._compute_adjusted_ratings: home court, rest differential,
back-to-back and star-out adjustments applied to the raw Elo ratings,
then the expected score of the adjusted ratings. -/
noncomputable def _compute_adjusted_ratings (m : RatingsMap)
    (home_team away_team : String) (rest_diff : ℤ)
    (home_b2b away_b2b home_star_out away_star_out : Bool) : AdjustedRatings :=
  let home_rating := get_rating m home_team
  let away_rating := get_rating m away_team
  let adj_home := home_rating + HOME_COURT_ELO + (rest_diff : ℝ) * REST_ELO_PER_DAY
    - (if home_b2b then B2B_PENALTY_ELO else 0)
    - (if home_star_out then STAR_OUT_PENALTY_ELO else 0)
  let adj_away := away_rating
    - (if away_b2b then B2B_PENALTY_ELO else 0)
    - (if away_star_out then STAR_OUT_PENALTY_ELO else 0)
  { home_rating := home_rating
    away_rating := away_rating
    adj_home_rating := adj_home
    adj_away_rating := adj_away
    elo_diff := adj_home - adj_away
    home_win_p_raw := expected_score adj_home adj_away }

/-- NBAModel.predict_win_prob: clamp the raw 2-way probabilities to
[MIN_PROBABILITY, MAX_PROBABILITY], renormalise the pair to 100, and, when a
market pair is supplied and the shrink factor is positive, blend with the
market and renormalise again.  The market dict is embedded as an optional
(home, away) pair (a supplied dict carries both keys in this code base); the
return_debug flag only adds a reporting key and is dropped. -/
noncomputable def predict_win_prob (m : RatingsMap)
    (home_team away_team : String) (rest_diff : ℤ)
    (home_b2b away_b2b home_star_out away_star_out : Bool)
    (market_probabilities : Option (ℝ × ℝ)) : ℝ × ℝ :=
  let adjusted := _compute_adjusted_ratings m home_team away_team rest_diff
    home_b2b away_b2b home_star_out away_star_out
  let home_win_p := adjusted.home_win_p_raw
  let home_prob := max MIN_PROBABILITY (min MAX_PROBABILITY (home_win_p * 100))
  let away_prob := max MIN_PROBABILITY (min MAX_PROBABILITY ((1 - home_win_p) * 100))
  let total := home_prob + away_prob
  let home_prob2 := home_prob / total * 100
  let away_prob2 := away_prob / total * 100
  match market_probabilities with
  | some mp =>
    if MARKET_SHRINK_FACTOR > 0 then
      let cal_home := (1 - MARKET_SHRINK_FACTOR) * home_prob2 + MARKET_SHRINK_FACTOR * mp.1
      let cal_away := (1 - MARKET_SHRINK_FACTOR) * away_prob2 + MARKET_SHRINK_FACTOR * mp.2
      let cal_total := cal_home + cal_away
      (cal_home / cal_total * 100, cal_away / cal_total * 100)
    else (home_prob2, away_prob2)
  | none => (home_prob2, away_prob2)

end NBA

namespace Soccer

/-- PredictionModel.elo_to_win_probability: the Elo logistic again. -/
noncomputable def elo_to_win_probability (rating_a rating_b : ℝ) : ℝ :=
  1 / (1 + (10 : ℝ) ^ ((rating_b - rating_a) / 400))

/-- PredictionModel.predict_match_probabilities of soccer_bot/model.py:
home advantage, form and capped goal-differential adjustments, the
heuristic 3-way split around the base draw probability, per-outcome
clamping (home/away to [MIN_PROBABILITY, MAX_PROBABILITY], draw to
[10, 40]) and, when market probabilities are supplied and the shrink
factor is positive, a blend toward the market.  The market dict is
embedded as an optional (home, draw, away) triple.  Note the source
performs no renormalisation in either branch. -/
noncomputable def predict_match_probabilities (r : Ratings)
    (home_team away_team : String) (home_form away_form : ℝ)
    (home_goal_diff away_goal_diff : ℤ)
    (market_probabilities : Option (ℝ × ℝ × ℝ)) : ℝ × ℝ × ℝ :=
  let home_rating := get_rating r home_team
  let away_rating := get_rating r away_team
  let adjusted_home_rating := home_rating + HOME_ADVANTAGE_ELO + home_form * 100
    + ((max (-5) (min 5 (home_goal_diff - away_goal_diff)) : ℤ) : ℝ) * 5
  let adjusted_away_rating := away_rating + away_form * 100
  let home_win_expectation := elo_to_win_probability adjusted_home_rating adjusted_away_rating
  let draw_base : ℝ := 0.25
  let hda : ℝ × ℝ × ℝ :=
    if home_win_expectation > 0.5 then
      let home_prob := 35 + (home_win_expectation - 0.5) * 60
      let draw_prob := draw_base * 100 * (1 - |home_win_expectation - 0.5| * 0.5)
      (home_prob, draw_prob, 100 - home_prob - draw_prob)
    else
      let away_prob := 35 + (0.5 - home_win_expectation) * 60
      let draw_prob := draw_base * 100 * (1 - |home_win_expectation - 0.5| * 0.5)
      (100 - away_prob - draw_prob, draw_prob, away_prob)
  let raw_probs : ℝ × ℝ × ℝ :=
    (max MIN_PROBABILITY (min MAX_PROBABILITY hda.1),
      max 10 (min 40 hda.2.1),
      max MIN_PROBABILITY (min MAX_PROBABILITY hda.2.2))
  match market_probabilities with
  | some mp =>
    if MARKET_SHRINK_FACTOR > 0 then
      ((1 - MARKET_SHRINK_FACTOR) * raw_probs.1 + MARKET_SHRINK_FACTOR * mp.1,
        (1 - MARKET_SHRINK_FACTOR) * raw_probs.2.1 + MARKET_SHRINK_FACTOR * mp.2.1,
        (1 - MARKET_SHRINK_FACTOR) * raw_probs.2.2 + MARKET_SHRINK_FACTOR * mp.2.2)
    else raw_probs
  | none => raw_probs

end Soccer

namespace NBA

/-- A row of the bets table (nba_bot/database.py schema): the fields written
by add_bet and read or updated at settlement.  The wall-clock timestamp and
the constant sport column are omitted (pure wall-clock and constant data,
never read by the bot logic). -/
structure Bet where
  id : Nat
  home_team : String
  away_team : String
  bet_type : String
  odds : ℚ
  stake : ℚ
  true_probability : ℚ
  market_probability : ℚ
  edge : ℚ
  result : Option String
  profit_loss : Option ℚ
  match_date : Option String
deriving DecidableEq

/-- The mutable state of NBABettingBot relevant to bet placement and
settlement: the bankroll and the bets table; next_id models the sqlite
AUTOINCREMENT counter that produces cursor.lastrowid. -/
structure BotState where
  bankroll : ℚ
  bets : List Bet
  next_id : Nat
deriving DecidableEq

/-- NBADatabase.add_bet: insert a new unsettled row and return its id. -/
def add_bet (s : BotState) (home_team away_team bet_type : String)
    (odds stake true_probability market_probability edge : ℚ)
    (match_date : Option String) : BotState × Nat :=
  let bet : Bet :=
    { id := s.next_id
      home_team := home_team
      away_team := away_team
      bet_type := bet_type
      odds := odds
      stake := stake
      true_probability := true_probability
      market_probability := market_probability
      edge := edge
      result := none
      profit_loss := none
      match_date := match_date }
  ({ s with bets := s.bets ++ [bet], next_id := s.next_id + 1 }, s.next_id)

/-- NBADatabase.update_bet_result: the UPDATE ... WHERE id = bet_id. -/
def update_bet_result (bets : List Bet) (bet_id : Nat) (result : String)
    (profit_loss : ℚ) : List Bet :=
  bets.map (fun b =>
    if b.id = bet_id then { b with result := some result, profit_loss := some profit_loss }
    else b)

/-- NBABettingBot.place_bet: record the bet and deduct the stake from the
bankroll. -/
def place_bet (s : BotState) (home_team away_team bet_type : String)
    (odds stake true_probability market_probability edge : ℚ)
    (match_date : Option String) : BotState × Nat :=
  let r := add_bet s home_team away_team bet_type odds stake true_probability
    market_probability edge match_date
  ({ r.1 with bankroll := r.1.bankroll - stake }, r.2)

/-- NBABettingBot.settle_bet.  The source never raises: on an unknown bet id
it prints a message and returns None, leaving all state unchanged; the
printed lines are returned alongside the new state.  Any result string other
than win or loss is treated as a push by the final else. -/
def settle_bet (s : BotState) (bet_id : Nat) (result : String) :
    BotState × List String :=
  match s.bets.find? (fun b => b.id == bet_id) with
  | none => (s, [("Bet ") ++ toString bet_id ++ (" not found")])
  | some bet =>
    if result = ("win") then
      let profit_loss := bet.stake * (bet.odds - 1)
      ({ s with
          bankroll := s.bankroll + bet.stake + profit_loss
          bets := update_bet_result s.bets bet_id result profit_loss }, [])
    else if result = ("loss") then
      ({ s with bets := update_bet_result s.bets bet_id result (-bet.stake) }, [])
    else
      ({ s with
          bankroll := s.bankroll + bet.stake
          bets := update_bet_result s.bets bet_id result 0 }, [])

/-- The market-input parsing stage of NBABettingBot.analyze_game (bot.py
lines 111 to 127): either a complete moneyline pair or a complete
decimal-odds pair must be supplied, otherwise ValueError is raised; a
moneyline of 0 raises ZeroDivisionError inside _ml_to_decimal.  Returns the
implied-probability pair and the decimal betting odds pair.  The remainder
of analyze_game only consumes these values and cannot reach the raise. -/
def analyze_game_market_inputs (home_ml away_ml home_odds away_odds : Option ℚ) :
    Except String ((ℚ × ℚ) × (ℚ × ℚ)) :=
  match home_ml, away_ml with
  | some hml, some aml =>
    match _ml_to_decimal hml, _ml_to_decimal aml with
    | some home_bet_odds, some away_bet_odds =>
      Except.ok ((moneyline_to_implied_prob hml, moneyline_to_implied_prob aml),
        (home_bet_odds, away_bet_odds))
    | _, _ => Except.error ("ZeroDivisionError")
  | _, _ =>
    match home_odds, away_odds with
    | some ho, some ao =>
      Except.ok ((decimal_to_implied_prob ho, decimal_to_implied_prob ao), (ho, ao))
    | _, _ => Except.error ("Provide either (home_ml, away_ml) or (home_odds, away_odds).")

end NBA

namespace PyStr

theorem not_space_of_mem_splitOnP (l w : List Char)
    (hw : w ∈ l.splitOnP pyIsSpace) : ∀ c ∈ w, ¬ (pyIsSpace c = true) := by
  induction l generalizing w with
  | nil =>
    rw [List.splitOnP_nil] at hw
    rcases List.mem_singleton.mp hw with rfl
    intro c hc
    exact absurd hc (List.not_mem_nil c)
  | cons a l ih =>
    rw [List.splitOnP_cons] at hw
    by_cases hp : pyIsSpace a = true
    · rw [if_pos hp] at hw
      rcases List.mem_cons.mp hw with rfl | hw'
      · intro c hc; exact absurd hc (List.not_mem_nil c)
      · exact ih w hw'
    · rw [if_neg hp] at hw
      cases hsp : l.splitOnP pyIsSpace with
      | nil => exact absurd hsp (List.splitOnP_ne_nil _ _)
      | cons h t =>
        rw [hsp] at hw
        simp only [List.modifyHead] at hw
        rcases List.mem_cons.mp hw with rfl | hw'
        · intro c hc
          rcases List.mem_cons.mp hc with rfl | hc'
          · exact hp
          · exact ih h (hsp ▸ List.mem_cons_self h t) c hc'
        · exact ih w (hsp ▸ List.mem_cons_of_mem h hw')

theorem mem_pyWords (l w : List Char) (hw : w ∈ pyWords l) :
    w ≠ [] ∧ ∀ c ∈ w, ¬ (pyIsSpace c = true) := by
  unfold pyWords at hw
  have h := List.mem_filter.mp hw
  refine ⟨?_, not_space_of_mem_splitOnP l w h.1⟩
  intro hnil
  subst hnil
  simp at h

theorem pyWords_joinSp (ws : List (List Char))
    (hws : ∀ w ∈ ws, w ≠ [] ∧ ∀ c ∈ w, ¬ (pyIsSpace c = true)) :
    pyWords (joinSp ws) = ws := by
  induction ws with
  | nil => rfl
  | cons w ws ih =>
    cases ws with
    | nil =>
      have hw := hws w (List.mem_cons_self w [])
      show pyWords w = [w]
      unfold pyWords
      rw [List.splitOnP_eq_single _ _ hw.2]
      have : (!w.isEmpty) = true := by
        cases w with
        | nil => exact absurd rfl hw.1
        | cons c cs => rfl
      simp [this]
    | cons v ws' =>
      have hw := hws w (List.mem_cons_self w (v :: ws'))
      show pyWords (w ++ ' ' :: joinSp (v :: ws')) = w :: v :: ws'
      unfold pyWords
      rw [List.splitOnP_first _ _ hw.2 ' ' rfl]
      rw [List.filter_cons]
      have : (!w.isEmpty) = true := by
        cases w with
        | nil => exact absurd rfl hw.1
        | cons c cs => rfl
      rw [if_pos this]
      have ihres := ih (fun x hx => hws x (List.mem_cons_of_mem w hx))
      unfold pyWords at ihres
      rw [ihres]

theorem splitOnP_allspace (t : List Char) (ht : ∀ c ∈ t, pyIsSpace c = true) :
    t.splitOnP pyIsSpace = List.replicate (t.length + 1) [] := by
  induction t with
  | nil => rfl
  | cons c t ih =>
    rw [List.splitOnP_cons, if_pos (ht c (List.mem_cons_self c t))]
    rw [ih (fun x hx => ht x (List.mem_cons_of_mem c hx))]
    rfl

theorem splitOnP_append_allspace (l t : List Char) (ht : ∀ c ∈ t, pyIsSpace c = true) :
    (l ++ t).splitOnP pyIsSpace = l.splitOnP pyIsSpace ++ List.replicate t.length [] := by
  induction l with
  | nil =>
    rw [List.nil_append, splitOnP_allspace t ht, List.splitOnP_nil]
    rfl
  | cons a l ih =>
    rw [List.cons_append, List.splitOnP_cons, List.splitOnP_cons]
    by_cases hp : pyIsSpace a = true
    · rw [if_pos hp, if_pos hp, ih, List.cons_append]
    · rw [if_neg hp, if_neg hp, ih]
      cases hsp : l.splitOnP pyIsSpace with
      | nil => exact absurd hsp (List.splitOnP_ne_nil _ _)
      | cons h rest => rfl

theorem filter_replicate_nil (n : ℕ) :
    (List.replicate n ([] : List Char)).filter (fun w => !w.isEmpty) = [] := by
  induction n with
  | zero => rfl
  | succ n ih =>
    rw [List.replicate_succ, List.filter_cons]
    simpa using ih

theorem pyWords_append_allspace (l t : List Char) (ht : ∀ c ∈ t, pyIsSpace c = true) :
    pyWords (l ++ t) = pyWords l := by
  unfold pyWords
  rw [splitOnP_append_allspace l t ht, List.filter_append, filter_replicate_nil,
    List.append_nil]

theorem pyWords_dropWhile (l : List Char) :
    pyWords (l.dropWhile pyIsSpace) = pyWords l := by
  induction l with
  | nil => rfl
  | cons a l ih =>
    by_cases hp : pyIsSpace a = true
    · rw [List.dropWhile_cons_of_pos hp, ih]
      unfold pyWords
      rw [List.splitOnP_cons, if_pos hp, List.filter_cons]
      norm_num
    · rw [List.dropWhile_cons_of_neg hp]

theorem pyWords_pyStrip (l : List Char) : pyWords (pyStrip l) = pyWords l := by
  have hd : pyWords (l.dropWhile pyIsSpace) = pyWords l := pyWords_dropWhile l
  set d := l.dropWhile pyIsSpace with hdef
  have hsplit : d.reverse.takeWhile pyIsSpace ++ d.reverse.dropWhile pyIsSpace = d.reverse :=
    List.takeWhile_append_dropWhile pyIsSpace d.reverse
  have hdec : d = pyStrip l ++ (d.reverse.takeWhile pyIsSpace).reverse := by
    unfold pyStrip
    rw [← hdef]
    calc d = d.reverse.reverse := (List.reverse_reverse d).symm
    _ = (d.reverse.takeWhile pyIsSpace ++ d.reverse.dropWhile pyIsSpace).reverse := by
        rw [hsplit]
    _ = (d.reverse.dropWhile pyIsSpace).reverse ++ (d.reverse.takeWhile pyIsSpace).reverse := by
        rw [List.reverse_append]
  have hall : ∀ c ∈ (d.reverse.takeWhile pyIsSpace).reverse, pyIsSpace c = true := by
    intro c hc
    rw [List.mem_reverse] at hc
    exact List.mem_takeWhile_imp hc
  calc pyWords (pyStrip l)
      = pyWords (pyStrip l ++ (d.reverse.takeWhile pyIsSpace).reverse) :=
        (pyWords_append_allspace _ _ hall).symm
    _ = pyWords d := by rw [← hdec]
    _ = pyWords l := hd

theorem pyWords_pyCollapse (l : List Char) :
    pyWords (pyCollapse l) = pyWords (pyStrip l) := by
  unfold pyCollapse
  exact pyWords_joinSp _ (fun w hw => mem_pyWords _ w hw)

theorem pyCollapse_idem (l : List Char) : pyCollapse (pyCollapse l) = pyCollapse l := by
  show joinSp (pyWords (pyStrip (pyCollapse l))) = pyCollapse l
  rw [pyWords_pyStrip, pyWords_pyCollapse]
  rfl

end PyStr

/-- C2 counterexample: remove_bookmaker_margin(10, 0, 0) has a positive input
but its output sums to 10, not 100: a sum below 100 is passed through
unchanged. -/
theorem c2_counterexample :
    (0 : ℚ) < 10 ∧
    ¬ ((Soccer.remove_bookmaker_margin 10 0 0).1 +
        (Soccer.remove_bookmaker_margin 10 0 0).2.1 +
        (Soccer.remove_bookmaker_margin 10 0 0).2.2 = 100) := by
  constructor
  · norm_num
  · norm_num [Soccer.remove_bookmaker_margin]

/-- C2 amended: remove_vig_two_way always returns a pair summing to 100;
remove_bookmaker_margin returns a triple summing to 100 whenever the input
sum is at least 100, and returns the inputs unchanged (preserving their
sub-100 sum) whenever the input sum is at most 100. -/
theorem c2_amended_margin_sum :
    (∀ h a : ℚ, (NBA.remove_vig_two_way h a).1 + (NBA.remove_vig_two_way h a).2 = 100) ∧
    (∀ h d a : ℚ, 100 ≤ h + d + a →
      (Soccer.remove_bookmaker_margin h d a).1 +
        (Soccer.remove_bookmaker_margin h d a).2.1 +
        (Soccer.remove_bookmaker_margin h d a).2.2 = 100) ∧
    (∀ h d a : ℚ, h + d + a ≤ 100 →
      Soccer.remove_bookmaker_margin h d a = (h, d, a)) := by
  refine ⟨?_, ?_, ?_⟩
  · intro h a
    unfold NBA.remove_vig_two_way
    by_cases hle : h + a ≤ 0
    · simp only [hle, if_true]
      norm_num
    · have hpos : h + a ≠ 0 := by intro h0; exact hle (le_of_eq h0)
      simp only [hle, if_false]
      field_simp
      ring
  · intro h d a hge
    unfold Soccer.remove_bookmaker_margin
    by_cases hle : h + d + a ≤ 100
    · have h100 : h + d + a = 100 := le_antisymm hle hge
      simp only [hle, if_true]
      exact h100
    · have hpos : h + d + a ≠ 0 := by
        intro h0
        rw [h0] at hge
        norm_num at hge
      simp only [hle, if_false]
      field_simp
      ring
  · intro h d a hle
    unfold Soccer.remove_bookmaker_margin
    simp [hle]

/-- C2 witness: concrete instances of the amended theorem. -/
theorem c2_witness :
    ((NBA.remove_vig_two_way 55 60).1 + (NBA.remove_vig_two_way 55 60).2 = 100) ∧
    ((100 : ℚ) ≤ 110 + 20 + 10) ∧
    ((Soccer.remove_bookmaker_margin 110 20 10).1 +
      (Soccer.remove_bookmaker_margin 110 20 10).2.1 +
      (Soccer.remove_bookmaker_margin 110 20 10).2.2 = 100) ∧
    ((10 : ℚ) + 0 + 0 ≤ 100) ∧
    (Soccer.remove_bookmaker_margin 10 0 0 = (10, 0, 0)) :=
  ⟨c2_amended_margin_sum.1 55 60, by norm_num,
    c2_amended_margin_sum.2.1 110 20 10 (by norm_num), by norm_num,
    c2_amended_margin_sum.2.2 10 0 0 (by norm_num)⟩

/-- C4: the Kelly stake is 0 outside the profitable region, equals the
multiplier-scaled raw Kelly fraction capped at MAX_STAKE_PERCENT/100 inside
it, always lies in [0, MAX_STAKE_PERCENT/100], and the example
p = 0.6, o = 2.0, multiplier = 0.5 yields exactly the 0.05 cap. -/
theorem c4_kelly_criterion_spec :
    (∀ p o f : ℚ,
      (p ≤ 0 → Soccer.kelly_criterion p o f = 0) ∧
      (1 ≤ p → Soccer.kelly_criterion p o f = 0) ∧
      (o ≤ 1 → Soccer.kelly_criterion p o f = 0) ∧
      (((o - 1) * p - (1 - p)) / (o - 1) * f ≤ 0 → Soccer.kelly_criterion p o f = 0) ∧
      (0 < ((o - 1) * p - (1 - p)) / (o - 1) * f → 0 < p → p < 1 → 1 < o →
        Soccer.kelly_criterion p o f =
          min (((o - 1) * p - (1 - p)) / (o - 1) * f) (Soccer.MAX_STAKE_PERCENT / 100)) ∧
      0 ≤ Soccer.kelly_criterion p o f ∧
      Soccer.kelly_criterion p o f ≤ Soccer.MAX_STAKE_PERCENT / 100) ∧
    Soccer.kelly_criterion 0.6 2 0.5 = 0.05 := by
  constructor
  · intro p o f
    refine ⟨?_, ?_, ?_, ?_, ?_, ?_, ?_⟩
    · intro hp; unfold Soccer.kelly_criterion; simp [hp]
    · intro hp; unfold Soccer.kelly_criterion
      have : p ≤ 0 ∨ 1 ≤ p ∨ o ≤ 1 := Or.inr (Or.inl hp)
      simp [this]
    · intro ho; unfold Soccer.kelly_criterion
      have : p ≤ 0 ∨ 1 ≤ p ∨ o ≤ 1 := Or.inr (Or.inr ho)
      simp [this]
    · intro hk; unfold Soccer.kelly_criterion
      by_cases hcond : p ≤ 0 ∨ 1 ≤ p ∨ o ≤ 1
      · simp [hcond]
      · simp only [hcond, if_false]
        simp [hk]
    · intro hk hp hp1 ho
      unfold Soccer.kelly_criterion
      have hcond : ¬ (p ≤ 0 ∨ 1 ≤ p ∨ o ≤ 1) := by
        push_neg
        exact ⟨hp, hp1, ho⟩
      simp only [hcond, if_false]
      have : ¬ ((o - 1) * p - (1 - p)) / (o - 1) * f ≤ 0 := not_le.mpr hk
      simp [this]
    · unfold Soccer.kelly_criterion
      by_cases hcond : p ≤ 0 ∨ 1 ≤ p ∨ o ≤ 1
      · simp [hcond]
      · simp only [hcond, if_false]
        by_cases hk : ((o - 1) * p - (1 - p)) / (o - 1) * f ≤ 0
        · simp [hk]
        · simp only [hk, if_false]
          have h1 : (0 : ℚ) < ((o - 1) * p - (1 - p)) / (o - 1) * f := not_le.mp hk
          have h2 : (0 : ℚ) ≤ Soccer.MAX_STAKE_PERCENT / 100 := by
            unfold Soccer.MAX_STAKE_PERCENT; norm_num
          exact le_min (le_of_lt h1) h2
    · unfold Soccer.kelly_criterion
      by_cases hcond : p ≤ 0 ∨ 1 ≤ p ∨ o ≤ 1
      · simp only [hcond, if_true]
        unfold Soccer.MAX_STAKE_PERCENT; norm_num
      · simp only [hcond, if_false]
        by_cases hk : ((o - 1) * p - (1 - p)) / (o - 1) * f ≤ 0
        · simp only [hk, if_true]
          unfold Soccer.MAX_STAKE_PERCENT; norm_num
        · simp only [hk, if_false]
          exact min_le_right _ _
  · unfold Soccer.kelly_criterion Soccer.MAX_STAKE_PERCENT
    norm_num

/-- C4 witness: concrete instances, discharging each guard of the theorem at
explicit inputs. -/
theorem c4_witness :
    Soccer.kelly_criterion 0.6 2 0.5 = 0.05 ∧
    ((-1 : ℚ) ≤ 0 ∧ Soccer.kelly_criterion (-1) 2 0.5 = 0) ∧
    ((1 : ℚ) ≤ 2 ∧ Soccer.kelly_criterion 2 2 0.5 = 0) ∧
    ((0.5 : ℚ) ≤ 1 ∧ Soccer.kelly_criterion 0.6 0.5 0.5 = 0) ∧
    (0 ≤ Soccer.kelly_criterion 0.9 5 1 ∧
      Soccer.kelly_criterion 0.9 5 1 ≤ Soccer.MAX_STAKE_PERCENT / 100) :=
  ⟨c4_kelly_criterion_spec.2,
    ⟨by norm_num, (c4_kelly_criterion_spec.1 (-1) 2 0.5).1 (by norm_num)⟩,
    ⟨by norm_num, (c4_kelly_criterion_spec.1 2 2 0.5).2.1 (by norm_num)⟩,
    ⟨by norm_num, (c4_kelly_criterion_spec.1 0.6 0.5 0.5).2.2.1 (by norm_num)⟩,
    ⟨(c4_kelly_criterion_spec.1 0.9 5 1).2.2.2.2.2.1,
      (c4_kelly_criterion_spec.1 0.9 5 1).2.2.2.2.2.2⟩⟩

/-- C5 counterexample: remove_bookmaker_margin(0, 0, 0) does not return the
uniform 33.33 split; the all-zero triple falls in the total ≤ 100 branch
and is passed through unchanged. -/
theorem c5_counterexample :
    Soccer.remove_bookmaker_margin 0 0 0 = (0, 0, 0) ∧
    Soccer.remove_bookmaker_margin 0 0 0 ≠ ((33.33 : ℚ), (33.33 : ℚ), (33.33 : ℚ)) := by
  constructor
  · norm_num [Soccer.remove_bookmaker_margin]
  · norm_num [Soccer.remove_bookmaker_margin, Prod.ext_iff]

/-- C5 amended: on all-zero inputs remove_vig_two_way returns the uniform
50/50 split and normalize_probabilities returns the uniform 33.33 split,
while remove_bookmaker_margin passes the zero triple through unchanged;
no branch divides by zero. -/
theorem c5_amended_zero_inputs :
    NBA.remove_vig_two_way 0 0 = (50, 50) ∧
    Soccer.normalize_probabilities 0 0 0 = (33.33, 33.33, 33.33) ∧
    Soccer.remove_bookmaker_margin 0 0 0 = (0, 0, 0) := by
  refine ⟨?_, ?_, ?_⟩
  · norm_num [NBA.remove_vig_two_way]
  · norm_num [Soccer.normalize_probabilities]
  · norm_num [Soccer.remove_bookmaker_margin]

/-- C7 counterexample: _ml_to_decimal is not total at ml = 0: the non-positive
branch divides 100 by abs(0) and raises ZeroDivisionError (embedded as none). -/
theorem c7_counterexample : NBA._ml_to_decimal 0 = none := by
  norm_num [NBA._ml_to_decimal]

/-- C7 amended: for every nonzero moneyline the conversion succeeds and
returns 1 + ml/100 for positive ml and 1 + 100/abs(ml) for negative ml;
only ml = 0 faults. -/
theorem c7_amended_ml_to_decimal :
    ∀ ml : ℚ, ml ≠ 0 →
      NBA._ml_to_decimal ml =
        some (if 0 < ml then 1 + ml / 100 else 1 + 100 / |ml|) := by
  intro ml hml
  unfold NBA._ml_to_decimal
  by_cases hpos : ml > 0
  · simp [hpos]
  · have habs : ¬ (|ml| = 0) := by
      simp only [abs_eq_zero]
      exact hml
    have hnlt : ¬ (0 < ml) := hpos
    simp [hpos, habs, hnlt]

/-- C7 witness: the amended theorem at ml = -150. -/
theorem c7_witness :
    (-150 : ℚ) ≠ 0 ∧ NBA._ml_to_decimal (-150) = some (1 + 100 / 150) := by
  refine ⟨by norm_num, ?_⟩
  have h := c7_amended_ml_to_decimal (-150) (by norm_num)
  rw [h]
  norm_num

/-- C6: the Elo update is zero-sum for every pair of pre-game ratings, every
K-factor and home-advantage value and every win/loss result: the home delta
is the negation of the away delta, both in nba_bot/elo.py update_elo and in
soccer_bot TeamRatings.update_ratings_after_match (where both new ratings
are computed from the pre-match map before either write). -/
theorem c6_elo_zero_sum :
    (∀ (r_home r_away : ℝ) (home_won : Bool) (k home_adv : ℝ),
      (NBAElo.update_elo r_home r_away home_won k home_adv).1 - r_home =
        -((NBAElo.update_elo r_home r_away home_won k home_adv).2 - r_away)) ∧
    (∀ (r : Soccer.Ratings) (home_team away_team : String) (home_score away_score : ℤ),
      home_team ≠ away_team → home_score ≠ away_score →
      Soccer.get_rating (Soccer.update_ratings_after_match r home_team away_team home_score away_score) home_team
          - Soccer.get_rating r home_team =
        -(Soccer.get_rating (Soccer.update_ratings_after_match r home_team away_team home_score away_score) away_team
          - Soccer.get_rating r away_team)) := by
  constructor
  · intro r_home r_away home_won k home_adv
    unfold NBAElo.update_elo
    cases home_won <;> simp <;> ring
  · intro r home_team away_team home_score away_score hne hsc
    unfold Soccer.update_ratings_after_match
    simp only [Soccer.get_rating, Soccer.update_rating, if_neg hne, if_pos rfl,
      Option.getD_some]
    split_ifs <;> simp only [Option.getD_some] <;> ring

/-- C6 witness: the soccer zero-sum equation at a fresh ratings map,
distinct teams and a 2-0 home win, and the nba equation at concrete inputs. -/
theorem c6_witness :
    (("Team A" : String) ≠ ("Team B" : String)) ∧ ((2 : ℤ) ≠ (0 : ℤ)) ∧
    (Soccer.get_rating (Soccer.update_ratings_after_match (fun _ => none) ("Team A") ("Team B") 2 0) ("Team A")
        - Soccer.get_rating (fun _ => none) ("Team A") =
      -(Soccer.get_rating (Soccer.update_ratings_after_match (fun _ => none) ("Team A") ("Team B") 2 0) ("Team B")
        - Soccer.get_rating (fun _ => none) ("Team B"))) ∧
    ((NBAElo.update_elo 1500 1600 true 20 50).1 - 1500 =
      -((NBAElo.update_elo 1500 1600 true 20 50).2 - 1600)) :=
  ⟨by decide, by decide,
    c6_elo_zero_sum.2 (fun _ => none) ("Team A") ("Team B") 2 0 (by decide) (by decide),
    c6_elo_zero_sum.1 1500 1600 true 20 50⟩

namespace NBA

theorem lookup_snd_mem {β : Type} (tbl : List (List Char × β)) (k : List Char) (v : β)
    (h : tbl.lookup k = some v) : v ∈ tbl.map Prod.snd := by
  induction tbl with
  | nil => simp [List.lookup] at h
  | cons kv t ih =>
    obtain ⟨k1, v1⟩ := kv
    rw [List.lookup] at h
    cases hbe : k == k1 with
    | true =>
      rw [hbe] at h
      simp only [Option.some.injEq] at h
      subst h
      exact List.mem_map_of_mem Prod.snd (List.mem_cons_self _ _)
    | false =>
      rw [hbe] at h
      exact List.mem_cons_of_mem _ (ih h)

theorem normalizeL_values_fixed :
    ∀ v ∈ NBA.aliasesL.map Prod.snd, NBA.normalizeL v = v := by decide

theorem normalizeL_idem (s : List Char) :
    NBA.normalizeL (NBA.normalizeL s) = NBA.normalizeL s := by
  by_cases hs : s.isEmpty = true
  · have hnil : s = [] := List.isEmpty_iff.mp hs
    subst hnil
    rfl
  · cases hlk : NBA.aliasesL.lookup (PyStr.pyLower (PyStr.pyCollapse s)) with
    | some c =>
      have h1 : NBA.normalizeL s = c := by
        unfold NBA.normalizeL
        rw [if_neg hs, hlk]
      rw [h1]
      exact normalizeL_values_fixed c (lookup_snd_mem _ _ _ hlk)
    | none =>
      have h1 : NBA.normalizeL s = PyStr.pyCollapse s := by
        unfold NBA.normalizeL
        rw [if_neg hs, hlk]
      rw [h1]
      by_cases hn : (PyStr.pyCollapse s).isEmpty = true
      · have hnil : PyStr.pyCollapse s = [] := List.isEmpty_iff.mp hn
        rw [hnil]
        rfl
      · unfold NBA.normalizeL
        rw [if_neg hn, PyStr.pyCollapse_idem s, hlk]

end NBA

/-- C9: team-name canonicalisation is idempotent: applying
normalize_team_name twice equals applying it once, and every canonical
alias value of the table is a fixed point. -/
theorem c9_normalize_idempotent :
    (∀ s : String,
      NBA.normalize_team_name (NBA.normalize_team_name s) = NBA.normalize_team_name s) ∧
    (∀ kv ∈ NBA.aliases, NBA.normalize_team_name kv.2 = kv.2) := by
  constructor
  · intro s
    show String.mk (NBA.normalizeL (NBA.normalizeL s.data)) = String.mk (NBA.normalizeL s.data)
    rw [NBA.normalizeL_idem]
  · intro kv hkv
    show String.mk (NBA.normalizeL kv.2.data) = kv.2
    have hv : kv.2.data ∈ NBA.aliasesL.map Prod.snd := by
      unfold NBA.aliasesL
      rw [List.map_map]
      exact List.mem_map_of_mem _ hkv
    rw [NBA.normalizeL_values_fixed kv.2.data hv]

/-- C9 witness: a concrete table entry and the fixed-point equation at its
canonical value. -/
theorem c9_witness :
    ((("la lakers"), ("Los Angeles Lakers")) ∈ NBA.aliases) ∧
    NBA.normalize_team_name ("Los Angeles Lakers") = ("Los Angeles Lakers") :=
  ⟨by decide,
    c9_normalize_idempotent.2 ((("la lakers"), ("Los Angeles Lakers"))) (by decide)⟩

theorem rpow_ten_pos (x : ℝ) : 0 < (10 : ℝ) ^ x :=
  Real.rpow_pos_of_pos (by norm_num) x

theorem soccer_elo_prob_pos (a b : ℝ) : 0 < Soccer.elo_to_win_probability a b := by
  unfold Soccer.elo_to_win_probability
  have h := rpow_ten_pos ((b - a) / 400)
  positivity

theorem soccer_elo_prob_lt_one (a b : ℝ) : Soccer.elo_to_win_probability a b < 1 := by
  unfold Soccer.elo_to_win_probability
  have h := rpow_ten_pos ((b - a) / 400)
  rw [div_lt_one (by linarith)]
  linarith

theorem soccer_clamp_sum_high (e : ℝ) (he1 : e < 1) (h : e > 0.5) :
    max Soccer.MIN_PROBABILITY (min Soccer.MAX_PROBABILITY (35 + (e - 0.5) * 60))
      + max 10 (min 40 (0.25 * 100 * (1 - |e - 0.5| * 0.5)))
      + max Soccer.MIN_PROBABILITY (min Soccer.MAX_PROBABILITY
          (100 - (35 + (e - 0.5) * 60) - 0.25 * 100 * (1 - |e - 0.5| * 0.5))) = 100 := by
  have habs : |e - 0.5| = e - 0.5 := abs_of_nonneg (by linarith)
  rw [habs]
  unfold Soccer.MIN_PROBABILITY Soccer.MAX_PROBABILITY
  have h1 : min (85 : ℝ) (35 + (e - 0.5) * 60) = 35 + (e - 0.5) * 60 :=
    min_eq_right (by nlinarith)
  have h2 : max (5 : ℝ) (35 + (e - 0.5) * 60) = 35 + (e - 0.5) * 60 :=
    max_eq_right (by nlinarith)
  have h3 : min (40 : ℝ) (0.25 * 100 * (1 - (e - 0.5) * 0.5)) =
      0.25 * 100 * (1 - (e - 0.5) * 0.5) := min_eq_right (by nlinarith)
  have h4 : max (10 : ℝ) (0.25 * 100 * (1 - (e - 0.5) * 0.5)) =
      0.25 * 100 * (1 - (e - 0.5) * 0.5) := max_eq_right (by nlinarith)
  have h5 : min (85 : ℝ)
      (100 - (35 + (e - 0.5) * 60) - 0.25 * 100 * (1 - (e - 0.5) * 0.5)) =
      100 - (35 + (e - 0.5) * 60) - 0.25 * 100 * (1 - (e - 0.5) * 0.5) :=
    min_eq_right (by nlinarith)
  have h6 : max (5 : ℝ)
      (100 - (35 + (e - 0.5) * 60) - 0.25 * 100 * (1 - (e - 0.5) * 0.5)) =
      100 - (35 + (e - 0.5) * 60) - 0.25 * 100 * (1 - (e - 0.5) * 0.5) :=
    max_eq_right (by nlinarith)
  rw [h1, h2, h3, h4, h5, h6]
  ring

theorem soccer_clamp_sum_low (e : ℝ) (he0 : 0 < e) (h : ¬ e > 0.5) :
    max Soccer.MIN_PROBABILITY (min Soccer.MAX_PROBABILITY
        (100 - (35 + (0.5 - e) * 60) - 0.25 * 100 * (1 - |e - 0.5| * 0.5)))
      + max 10 (min 40 (0.25 * 100 * (1 - |e - 0.5| * 0.5)))
      + max Soccer.MIN_PROBABILITY (min Soccer.MAX_PROBABILITY (35 + (0.5 - e) * 60)) = 100 := by
  push_neg at h
  have habs : |e - 0.5| = 0.5 - e := by
    rw [abs_of_nonpos (by linarith)]
    ring
  rw [habs]
  unfold Soccer.MIN_PROBABILITY Soccer.MAX_PROBABILITY
  have h1 : min (85 : ℝ) (35 + (0.5 - e) * 60) = 35 + (0.5 - e) * 60 :=
    min_eq_right (by nlinarith)
  have h2 : max (5 : ℝ) (35 + (0.5 - e) * 60) = 35 + (0.5 - e) * 60 :=
    max_eq_right (by nlinarith)
  have h3 : min (40 : ℝ) (0.25 * 100 * (1 - (0.5 - e) * 0.5)) =
      0.25 * 100 * (1 - (0.5 - e) * 0.5) := min_eq_right (by nlinarith)
  have h4 : max (10 : ℝ) (0.25 * 100 * (1 - (0.5 - e) * 0.5)) =
      0.25 * 100 * (1 - (0.5 - e) * 0.5) := max_eq_right (by nlinarith)
  have h5 : min (85 : ℝ)
      (100 - (35 + (0.5 - e) * 60) - 0.25 * 100 * (1 - (0.5 - e) * 0.5)) =
      100 - (35 + (0.5 - e) * 60) - 0.25 * 100 * (1 - (0.5 - e) * 0.5) :=
    min_eq_right (by nlinarith)
  have h6 : max (5 : ℝ)
      (100 - (35 + (0.5 - e) * 60) - 0.25 * 100 * (1 - (0.5 - e) * 0.5)) =
      100 - (35 + (0.5 - e) * 60) - 0.25 * 100 * (1 - (0.5 - e) * 0.5) :=
    max_eq_right (by nlinarith)
  rw [h1, h2, h3, h4, h5, h6]
  ring

theorem soccer_predict_none_sum (r : Soccer.Ratings) (home_team away_team : String)
    (home_form away_form : ℝ) (home_goal_diff away_goal_diff : ℤ) :
    (Soccer.predict_match_probabilities r home_team away_team home_form away_form
        home_goal_diff away_goal_diff none).1
      + (Soccer.predict_match_probabilities r home_team away_team home_form away_form
        home_goal_diff away_goal_diff none).2.1
      + (Soccer.predict_match_probabilities r home_team away_team home_form away_form
        home_goal_diff away_goal_diff none).2.2 = 100 := by
  simp only [Soccer.predict_match_probabilities]
  split_ifs with h
  · exact soccer_clamp_sum_high _ (soccer_elo_prob_lt_one _ _) h
  · exact soccer_clamp_sum_low _ (soccer_elo_prob_pos _ _) h

theorem soccer_predict_some_sum (r : Soccer.Ratings) (home_team away_team : String)
    (home_form away_form : ℝ) (home_goal_diff away_goal_diff : ℤ) (mh md ma : ℝ) :
    (Soccer.predict_match_probabilities r home_team away_team home_form away_form
        home_goal_diff away_goal_diff (some (mh, md, ma))).1
      + (Soccer.predict_match_probabilities r home_team away_team home_form away_form
        home_goal_diff away_goal_diff (some (mh, md, ma))).2.1
      + (Soccer.predict_match_probabilities r home_team away_team home_form away_form
        home_goal_diff away_goal_diff (some (mh, md, ma))).2.2
      = (1 - Soccer.MARKET_SHRINK_FACTOR) * 100 + Soccer.MARKET_SHRINK_FACTOR * (mh + md + ma) := by
  have hs : Soccer.MARKET_SHRINK_FACTOR > 0 := by
    unfold Soccer.MARKET_SHRINK_FACTOR
    norm_num
  simp only [Soccer.predict_match_probabilities, if_pos hs]
  split_ifs with h
  · have hsum := soccer_clamp_sum_high _ (soccer_elo_prob_lt_one
      (Soccer.get_rating r home_team + Soccer.HOME_ADVANTAGE_ELO + home_form * 100
        + ((max (-5) (min 5 (home_goal_diff - away_goal_diff)) : ℤ) : ℝ) * 5)
      (Soccer.get_rating r away_team + away_form * 100)) h
    linear_combination (1 - Soccer.MARKET_SHRINK_FACTOR) * hsum
  · have hsum := soccer_clamp_sum_low _ (soccer_elo_prob_pos
      (Soccer.get_rating r home_team + Soccer.HOME_ADVANTAGE_ELO + home_form * 100
        + ((max (-5) (min 5 (home_goal_diff - away_goal_diff)) : ℤ) : ℝ) * 5)
      (Soccer.get_rating r away_team + away_form * 100)) h
    linear_combination (1 - Soccer.MARKET_SHRINK_FACTOR) * hsum

theorem two_part_renorm (X Y : ℝ) (h : X + Y ≠ 0) :
    X / (X + Y) * 100 + Y / (X + Y) * 100 = 100 := by
  field_simp
  ring

theorem nba_renorm_sum (p : ℝ) :
    max NBA.MIN_PROBABILITY (min NBA.MAX_PROBABILITY (p * 100))
        / (max NBA.MIN_PROBABILITY (min NBA.MAX_PROBABILITY (p * 100))
          + max NBA.MIN_PROBABILITY (min NBA.MAX_PROBABILITY ((1 - p) * 100))) * 100
      + max NBA.MIN_PROBABILITY (min NBA.MAX_PROBABILITY ((1 - p) * 100))
        / (max NBA.MIN_PROBABILITY (min NBA.MAX_PROBABILITY (p * 100))
          + max NBA.MIN_PROBABILITY (min NBA.MAX_PROBABILITY ((1 - p) * 100))) * 100 = 100 := by
  have h5 : (5 : ℝ) ≤ max NBA.MIN_PROBABILITY (min NBA.MAX_PROBABILITY (p * 100)) := by
    unfold NBA.MIN_PROBABILITY
    exact le_max_left _ _
  have a5 : (5 : ℝ) ≤ max NBA.MIN_PROBABILITY (min NBA.MAX_PROBABILITY ((1 - p) * 100)) := by
    unfold NBA.MIN_PROBABILITY
    exact le_max_left _ _
  have htot : max NBA.MIN_PROBABILITY (min NBA.MAX_PROBABILITY (p * 100))
      + max NBA.MIN_PROBABILITY (min NBA.MAX_PROBABILITY ((1 - p) * 100)) ≠ 0 := by
    intro h0
    nlinarith
  exact two_part_renorm _ _ htot

theorem nba_predict_none_sum (m : NBA.RatingsMap) (home_team away_team : String)
    (rest_diff : ℤ) (home_b2b away_b2b home_star_out away_star_out : Bool) :
    (NBA.predict_win_prob m home_team away_team rest_diff home_b2b away_b2b
        home_star_out away_star_out none).1
      + (NBA.predict_win_prob m home_team away_team rest_diff home_b2b away_b2b
        home_star_out away_star_out none).2 = 100 := by
  simp only [NBA.predict_win_prob]
  exact nba_renorm_sum _

theorem nba_predict_some_sum (m : NBA.RatingsMap) (home_team away_team : String)
    (rest_diff : ℤ) (home_b2b away_b2b home_star_out away_star_out : Bool)
    (mh ma : ℝ) (hmh : 0 ≤ mh) (hma : 0 ≤ ma) :
    (NBA.predict_win_prob m home_team away_team rest_diff home_b2b away_b2b
        home_star_out away_star_out (some (mh, ma))).1
      + (NBA.predict_win_prob m home_team away_team rest_diff home_b2b away_b2b
        home_star_out away_star_out (some (mh, ma))).2 = 100 := by
  have hs : NBA.MARKET_SHRINK_FACTOR > 0 := by
    unfold NBA.MARKET_SHRINK_FACTOR
    norm_num
  have hs1 : NBA.MARKET_SHRINK_FACTOR = 0.3 := rfl
  simp only [NBA.predict_win_prob, if_pos hs]
  have hr := nba_renorm_sum
    ((NBA._compute_adjusted_ratings m home_team away_team rest_diff home_b2b away_b2b
      home_star_out away_star_out).home_win_p_raw)
  set h2 := max NBA.MIN_PROBABILITY (min NBA.MAX_PROBABILITY
    ((NBA._compute_adjusted_ratings m home_team away_team rest_diff home_b2b away_b2b
      home_star_out away_star_out).home_win_p_raw * 100))
    / (max NBA.MIN_PROBABILITY (min NBA.MAX_PROBABILITY
      ((NBA._compute_adjusted_ratings m home_team away_team rest_diff home_b2b away_b2b
        home_star_out away_star_out).home_win_p_raw * 100))
      + max NBA.MIN_PROBABILITY (min NBA.MAX_PROBABILITY
        ((1 - (NBA._compute_adjusted_ratings m home_team away_team rest_diff home_b2b away_b2b
          home_star_out away_star_out).home_win_p_raw) * 100))) * 100 with hh2
  set a2 := max NBA.MIN_PROBABILITY (min NBA.MAX_PROBABILITY
    ((1 - (NBA._compute_adjusted_ratings m home_team away_team rest_diff home_b2b away_b2b
      home_star_out away_star_out).home_win_p_raw) * 100))
    / (max NBA.MIN_PROBABILITY (min NBA.MAX_PROBABILITY
      ((NBA._compute_adjusted_ratings m home_team away_team rest_diff home_b2b away_b2b
        home_star_out away_star_out).home_win_p_raw * 100))
      + max NBA.MIN_PROBABILITY (min NBA.MAX_PROBABILITY
        ((1 - (NBA._compute_adjusted_ratings m home_team away_team rest_diff home_b2b away_b2b
          home_star_out away_star_out).home_win_p_raw) * 100))) * 100 with ha2
  have hct : (1 - NBA.MARKET_SHRINK_FACTOR) * h2 + NBA.MARKET_SHRINK_FACTOR * mh
      + ((1 - NBA.MARKET_SHRINK_FACTOR) * a2 + NBA.MARKET_SHRINK_FACTOR * ma) ≠ 0 := by
    rw [hs1]
    intro h0
    nlinarith
  exact two_part_renorm _ _ hct

/-- C1 counterexample: the soccer 3-way predictor performs no
renormalisation after market calibration: with the market triple
(100, 100, 100) and the configured shrink factor 0.4 the returned
probabilities sum to 180, not 100. -/
theorem c1_counterexample :
    (Soccer.predict_match_probabilities (fun _ => none) ("Team A") ("Team B")
        0 0 0 0 (some (100, 100, 100))).1
      + (Soccer.predict_match_probabilities (fun _ => none) ("Team A") ("Team B")
        0 0 0 0 (some (100, 100, 100))).2.1
      + (Soccer.predict_match_probabilities (fun _ => none) ("Team A") ("Team B")
        0 0 0 0 (some (100, 100, 100))).2.2 = 180 ∧
    ¬ ((Soccer.predict_match_probabilities (fun _ => none) ("Team A") ("Team B")
        0 0 0 0 (some (100, 100, 100))).1
      + (Soccer.predict_match_probabilities (fun _ => none) ("Team A") ("Team B")
        0 0 0 0 (some (100, 100, 100))).2.1
      + (Soccer.predict_match_probabilities (fun _ => none) ("Team A") ("Team B")
        0 0 0 0 (some (100, 100, 100))).2.2 = 100) := by
  have h := soccer_predict_some_sum (fun _ => none) ("Team A") ("Team B") 0 0 0 0 100 100 100
  constructor
  · rw [h]
    unfold Soccer.MARKET_SHRINK_FACTOR
    norm_num
  · rw [h]
    unfold Soccer.MARKET_SHRINK_FACTOR
    norm_num

/-- C1 amended: the 2-way predictor renormalises after clamping and again
after market calibration, so its pair always sums to 100 (for nonnegative
supplied market probabilities).  The 3-way predictor never renormalises:
without market calibration its triple still sums to 100 because the raw
construction sums to 100 and the configured clamp bands never bind, but
with market calibration the sum is the blend
(1 - shrink) * 100 + shrink * (market sum), which equals 100 only when the
supplied market triple itself sums to 100. -/
theorem c1_amended_renormalization :
    (∀ (m : NBA.RatingsMap) (home_team away_team : String) (rest_diff : ℤ)
        (home_b2b away_b2b home_star_out away_star_out : Bool),
      (NBA.predict_win_prob m home_team away_team rest_diff home_b2b away_b2b
          home_star_out away_star_out none).1
        + (NBA.predict_win_prob m home_team away_team rest_diff home_b2b away_b2b
          home_star_out away_star_out none).2 = 100) ∧
    (∀ (m : NBA.RatingsMap) (home_team away_team : String) (rest_diff : ℤ)
        (home_b2b away_b2b home_star_out away_star_out : Bool) (mh ma : ℝ),
      0 ≤ mh → 0 ≤ ma →
      (NBA.predict_win_prob m home_team away_team rest_diff home_b2b away_b2b
          home_star_out away_star_out (some (mh, ma))).1
        + (NBA.predict_win_prob m home_team away_team rest_diff home_b2b away_b2b
          home_star_out away_star_out (some (mh, ma))).2 = 100) ∧
    (∀ (r : Soccer.Ratings) (home_team away_team : String) (home_form away_form : ℝ)
        (home_goal_diff away_goal_diff : ℤ),
      (Soccer.predict_match_probabilities r home_team away_team home_form away_form
          home_goal_diff away_goal_diff none).1
        + (Soccer.predict_match_probabilities r home_team away_team home_form away_form
          home_goal_diff away_goal_diff none).2.1
        + (Soccer.predict_match_probabilities r home_team away_team home_form away_form
          home_goal_diff away_goal_diff none).2.2 = 100) ∧
    (∀ (r : Soccer.Ratings) (home_team away_team : String) (home_form away_form : ℝ)
        (home_goal_diff away_goal_diff : ℤ) (mh md ma : ℝ),
      (Soccer.predict_match_probabilities r home_team away_team home_form away_form
          home_goal_diff away_goal_diff (some (mh, md, ma))).1
        + (Soccer.predict_match_probabilities r home_team away_team home_form away_form
          home_goal_diff away_goal_diff (some (mh, md, ma))).2.1
        + (Soccer.predict_match_probabilities r home_team away_team home_form away_form
          home_goal_diff away_goal_diff (some (mh, md, ma))).2.2
        = (1 - Soccer.MARKET_SHRINK_FACTOR) * 100
          + Soccer.MARKET_SHRINK_FACTOR * (mh + md + ma)) :=
  ⟨nba_predict_none_sum, fun m ht at1 rd b1 b2 s1 s2 mh ma hmh hma =>
      nba_predict_some_sum m ht at1 rd b1 b2 s1 s2 mh ma hmh hma,
    soccer_predict_none_sum, soccer_predict_some_sum⟩

/-- C1 witness: concrete instances of the amended theorem: a calibrated
2-way prediction summing to 100, and an uncalibrated 3-way prediction
summing to 100. -/
theorem c1_witness :
    ((0 : ℝ) ≤ 55) ∧ ((0 : ℝ) ≤ 60) ∧
    ((NBA.predict_win_prob (fun _ => none) ("Boston Celtics") ("Miami Heat") 0
        false false false false (some (55, 60))).1
      + (NBA.predict_win_prob (fun _ => none) ("Boston Celtics") ("Miami Heat") 0
        false false false false (some (55, 60))).2 = 100) ∧
    ((Soccer.predict_match_probabilities (fun _ => none) ("Arsenal") ("Chelsea")
        0 0 0 0 none).1
      + (Soccer.predict_match_probabilities (fun _ => none) ("Arsenal") ("Chelsea")
        0 0 0 0 none).2.1
      + (Soccer.predict_match_probabilities (fun _ => none) ("Arsenal") ("Chelsea")
        0 0 0 0 none).2.2 = 100) :=
  ⟨by norm_num, by norm_num,
    c1_amended_renormalization.2.1 (fun _ => none) ("Boston Celtics") ("Miami Heat") 0
      false false false false 55 60 (by norm_num) (by norm_num),
    c1_amended_renormalization.2.2.1 (fun _ => none) ("Arsenal") ("Chelsea") 0 0 0 0⟩

theorem nba_expected_mono (a a' b : ℝ) (h : a ≤ a') :
    NBA.expected_score a b ≤ NBA.expected_score a' b := by
  unfold NBA.expected_score
  have hexp : (b - a') / 400 ≤ (b - a) / 400 := by linarith
  have ht := Real.rpow_le_rpow_of_exponent_le (by norm_num : (1 : ℝ) ≤ 10) hexp
  have h0 := rpow_ten_pos ((b - a') / 400)
  have h0' := rpow_ten_pos ((b - a) / 400)
  apply one_div_le_one_div_of_le
  · linarith
  · linarith

theorem nba_final_home_mono (p q : ℝ) (hpq : p ≤ q) :
    max NBA.MIN_PROBABILITY (min NBA.MAX_PROBABILITY (p * 100))
        / (max NBA.MIN_PROBABILITY (min NBA.MAX_PROBABILITY (p * 100))
          + max NBA.MIN_PROBABILITY (min NBA.MAX_PROBABILITY ((1 - p) * 100))) * 100
      ≤ max NBA.MIN_PROBABILITY (min NBA.MAX_PROBABILITY (q * 100))
        / (max NBA.MIN_PROBABILITY (min NBA.MAX_PROBABILITY (q * 100))
          + max NBA.MIN_PROBABILITY (min NBA.MAX_PROBABILITY ((1 - q) * 100))) * 100 := by
  set h1 := max NBA.MIN_PROBABILITY (min NBA.MAX_PROBABILITY (p * 100)) with hh1
  set a1 := max NBA.MIN_PROBABILITY (min NBA.MAX_PROBABILITY ((1 - p) * 100)) with ha1
  set h2 := max NBA.MIN_PROBABILITY (min NBA.MAX_PROBABILITY (q * 100)) with hh2
  set a2 := max NBA.MIN_PROBABILITY (min NBA.MAX_PROBABILITY ((1 - q) * 100)) with ha2
  have hmin : NBA.MIN_PROBABILITY = (5 : ℝ) := rfl
  have h1pos : (5 : ℝ) ≤ h1 := by rw [hh1, hmin]; exact le_max_left _ _
  have a1pos : (5 : ℝ) ≤ a1 := by rw [ha1, hmin]; exact le_max_left _ _
  have h2pos : (5 : ℝ) ≤ h2 := by rw [hh2, hmin]; exact le_max_left _ _
  have a2pos : (5 : ℝ) ≤ a2 := by rw [ha2, hmin]; exact le_max_left _ _
  have hle : h1 ≤ h2 := by
    rw [hh1, hh2]
    exact max_le_max (le_refl _) (min_le_min (le_refl _) (by nlinarith))
  have ale : a2 ≤ a1 := by
    rw [ha1, ha2]
    exact max_le_max (le_refl _) (min_le_min (le_refl _) (by nlinarith))
  have hfrac : h1 / (h1 + a1) ≤ h2 / (h2 + a2) := by
    rw [div_le_div_iff (by linarith) (by linarith)]
    nlinarith
  nlinarith [hfrac]

/-- C8 amended: with everything else fixed (same ratings map, rest
differential, star-out flags, away back-to-back flag, no market
calibration), setting the home back-to-back flag yields a home-win
probability less than or equal to the prediction without the flag; the
inequality is strict whenever the probability clamp does not saturate, but
equality occurs when both calls clamp at the configured band (see the
counterexample). -/
theorem c8_amended_b2b_monotone
    (m : NBA.RatingsMap) (home_team away_team : String) (rest_diff : ℤ)
    (away_b2b home_star_out away_star_out : Bool) :
    (NBA.predict_win_prob m home_team away_team rest_diff true away_b2b
        home_star_out away_star_out none).1
      ≤ (NBA.predict_win_prob m home_team away_team rest_diff false away_b2b
        home_star_out away_star_out none).1 := by
  simp only [NBA.predict_win_prob]
  apply nba_final_home_mono
  simp only [NBA._compute_adjusted_ratings]
  simp only [if_true, if_false, Bool.false_eq_true, if_pos, ite_true, ite_false]
  apply nba_expected_mono
  have hb : NBA.B2B_PENALTY_ELO = (30 : ℝ) := rfl
  rw [hb]
  linarith

/-- C8 witness: the amended inequality at a concrete ratings map. -/
theorem c8_witness :
    (NBA.predict_win_prob (fun _ => none) ("Boston Celtics") ("Miami Heat") 0 true
        false false false none).1
      ≤ (NBA.predict_win_prob (fun _ => none) ("Boston Celtics") ("Miami Heat") 0 false
        false false false none).1 :=
  c8_amended_b2b_monotone (fun _ => none) ("Boston Celtics") ("Miami Heat") 0
    false false false

theorem nba_expected_bounds_of_gap (a b : ℝ) (h : (b - a) / 400 ≤ -2) :
    100 / 101 ≤ NBA.expected_score a b ∧ NBA.expected_score a b ≤ 1 := by
  unfold NBA.expected_score
  have ht0 := rpow_ten_pos ((b - a) / 400)
  have ht : (10 : ℝ) ^ ((b - a) / 400) ≤ 1 / 100 := by
    calc (10 : ℝ) ^ ((b - a) / 400) ≤ (10 : ℝ) ^ ((-2 : ℝ)) :=
          Real.rpow_le_rpow_of_exponent_le (by norm_num) h
    _ = 1 / 100 := by
        rw [show ((-2 : ℝ)) = ((-2 : ℤ) : ℝ) by norm_num, Real.rpow_intCast]
        norm_num
  constructor
  · rw [le_div_iff (by linarith)]
    nlinarith
  · rw [div_le_one (by linarith)]
    linarith

theorem nba_final_home_of_high (p : ℝ) (h1 : 100 / 101 ≤ p) (h2 : p ≤ 1) :
    max NBA.MIN_PROBABILITY (min NBA.MAX_PROBABILITY (p * 100))
        / (max NBA.MIN_PROBABILITY (min NBA.MAX_PROBABILITY (p * 100))
          + max NBA.MIN_PROBABILITY (min NBA.MAX_PROBABILITY ((1 - p) * 100))) * 100
      = 95 := by
  have hmin : NBA.MIN_PROBABILITY = (5 : ℝ) := rfl
  have hmax : NBA.MAX_PROBABILITY = (95 : ℝ) := rfl
  have ha : min NBA.MAX_PROBABILITY (p * 100) = NBA.MAX_PROBABILITY := by
    rw [hmax]
    exact min_eq_left (by nlinarith)
  have hb : max NBA.MIN_PROBABILITY NBA.MAX_PROBABILITY = NBA.MAX_PROBABILITY := by
    rw [hmin, hmax]
    exact max_eq_right (by norm_num)
  have hc : min NBA.MAX_PROBABILITY ((1 - p) * 100) = (1 - p) * 100 := by
    rw [hmax]
    exact min_eq_right (by nlinarith)
  have hd : max NBA.MIN_PROBABILITY ((1 - p) * 100) = NBA.MIN_PROBABILITY := by
    rw [hmin]
    exact max_eq_left (by nlinarith)
  rw [ha, hb, hc, hd, hmin, hmax]
  norm_num

/-- C8 counterexample: with ratings 3000 vs 1500 both calls saturate the
probability clamp at 95, so the home back-to-back flag does not strictly
lower the home-win probability: the two predictions are equal. -/
theorem c8_counterexample :
    (NBA.predict_win_prob
        (fun t => if t = ("AAA") then some (3000 : ℝ) else if t = ("BBB") then some 1500 else none)
        ("AAA") ("BBB") 0 true false false false none).1
      = (NBA.predict_win_prob
        (fun t => if t = ("AAA") then some (3000 : ℝ) else if t = ("BBB") then some 1500 else none)
        ("AAA") ("BBB") 0 false false false false none).1 := by
  have hA : NBA.get_rating
      (fun t => if t = ("AAA") then some (3000 : ℝ) else if t = ("BBB") then some 1500 else none)
      ("AAA") = 3000 := by
    unfold NBA.get_rating
    rw [show NBA.normalize_team_name ("AAA") = ("AAA") from by decide]
    simp
  have hB : NBA.get_rating
      (fun t => if t = ("AAA") then some (3000 : ℝ) else if t = ("BBB") then some 1500 else none)
      ("BBB") = 1500 := by
    unfold NBA.get_rating
    rw [show NBA.normalize_team_name ("BBB") = ("BBB") from by decide]
    simp
  have hbT : 100 / 101 ≤ (NBA._compute_adjusted_ratings
        (fun t => if t = ("AAA") then some (3000 : ℝ) else if t = ("BBB") then some 1500 else none)
        ("AAA") ("BBB") 0 true false false false).home_win_p_raw
      ∧ (NBA._compute_adjusted_ratings
        (fun t => if t = ("AAA") then some (3000 : ℝ) else if t = ("BBB") then some 1500 else none)
        ("AAA") ("BBB") 0 true false false false).home_win_p_raw ≤ 1 := by
    simp only [NBA._compute_adjusted_ratings]
    apply nba_expected_bounds_of_gap
    rw [hA, hB]
    simp only [if_true, ite_true, ite_false, Bool.false_eq_true]
    have h1 : NBA.HOME_COURT_ELO = (50 : ℝ) := rfl
    have h2 : NBA.REST_ELO_PER_DAY = (15 : ℝ) := rfl
    have h3 : NBA.B2B_PENALTY_ELO = (30 : ℝ) := rfl
    have h4 : NBA.STAR_OUT_PENALTY_ELO = (50 : ℝ) := rfl
    rw [h1, h2, h3]
    norm_num
  have hbF : 100 / 101 ≤ (NBA._compute_adjusted_ratings
        (fun t => if t = ("AAA") then some (3000 : ℝ) else if t = ("BBB") then some 1500 else none)
        ("AAA") ("BBB") 0 false false false false).home_win_p_raw
      ∧ (NBA._compute_adjusted_ratings
        (fun t => if t = ("AAA") then some (3000 : ℝ) else if t = ("BBB") then some 1500 else none)
        ("AAA") ("BBB") 0 false false false false).home_win_p_raw ≤ 1 := by
    simp only [NBA._compute_adjusted_ratings]
    apply nba_expected_bounds_of_gap
    rw [hA, hB]
    simp only [ite_false, Bool.false_eq_true, if_false]
    have h1 : NBA.HOME_COURT_ELO = (50 : ℝ) := rfl
    have h2 : NBA.REST_ELO_PER_DAY = (15 : ℝ) := rfl
    rw [h1, h2]
    norm_num
  simp only [NBA.predict_win_prob]
  rw [nba_final_home_of_high _ hbT.1 hbT.2, nba_final_home_of_high _ hbF.1 hbF.2]

/-- C3 counterexample: settle_bet with a bet id that matches no stored bet
does not surface a failure to the caller: it returns normally (the Python
function prints a message to stdout and returns None), leaving the bankroll
and the bet store unchanged. -/
theorem c3_counterexample :
    NBA.settle_bet { bankroll := 1000, bets := [], next_id := 1 } 5 ("win")
      = ({ bankroll := 1000, bets := [], next_id := 1 }, [("Bet 5 not found")]) := by
  rfl

/-- C3 amended: analyze_game raises ValueError when neither a complete
moneyline pair nor a complete decimal-odds pair is supplied; settle_bet on an
unknown bet id does not raise: it prints a not-found message and returns
normally with the bankroll and bet store unchanged. -/
theorem c3_amended_boundary_failures :
    (∀ home_ml away_ml home_odds away_odds : Option ℚ,
      (home_ml = none ∨ away_ml = none) → (home_odds = none ∨ away_odds = none) →
      NBA.analyze_game_market_inputs home_ml away_ml home_odds away_odds
        = Except.error ("Provide either (home_ml, away_ml) or (home_odds, away_odds).")) ∧
    (∀ (s : NBA.BotState) (bet_id : Nat) (result : String),
      s.bets.find? (fun b => b.id == bet_id) = none →
      NBA.settle_bet s bet_id result
        = (s, [("Bet ") ++ toString bet_id ++ (" not found")])) := by
  constructor
  · intro home_ml away_ml home_odds away_odds h1 h2
    cases home_ml <;> cases away_ml <;> cases home_odds <;> cases away_odds <;>
      simp_all [NBA.analyze_game_market_inputs]
  · intro s bet_id result h
    unfold NBA.settle_bet
    rw [h]

/-- C3 witness: the amended theorem at concrete inputs: no odds at all, and
an empty bet store with bet id 5. -/
theorem c3_witness :
    ((none : Option ℚ) = none ∨ (none : Option ℚ) = none) ∧
    (NBA.analyze_game_market_inputs none none none none
      = Except.error ("Provide either (home_ml, away_ml) or (home_odds, away_odds).")) ∧
    (([] : List NBA.Bet).find? (fun b => b.id == 5) = none) ∧
    (NBA.settle_bet { bankroll := 1000, bets := [], next_id := 1 } 5 ("loss")
      = ({ bankroll := 1000, bets := [], next_id := 1 }, [("Bet ") ++ toString 5 ++ (" not found")])) :=
  ⟨Or.inl rfl,
    c3_amended_boundary_failures.1 none none none none (Or.inl rfl) (Or.inl rfl),
    rfl,
    c3_amended_boundary_failures.2 { bankroll := 1000, bets := [], next_id := 1 } 5 ("loss") rfl⟩

theorem settle_found_win (s : NBA.BotState) (bet_id : Nat) (b : NBA.Bet)
    (h : s.bets.find? (fun x => x.id == bet_id) = some b) :
    (NBA.settle_bet s bet_id ("win")).1.bankroll = s.bankroll + b.stake * b.odds := by
  unfold NBA.settle_bet
  rw [h]
  simp
  ring

theorem settle_found_loss (s : NBA.BotState) (bet_id : Nat) (b : NBA.Bet)
    (h : s.bets.find? (fun x => x.id == bet_id) = some b) :
    (NBA.settle_bet s bet_id ("loss")).1.bankroll = s.bankroll := by
  unfold NBA.settle_bet
  rw [h]
  simp

theorem settle_found_push (s : NBA.BotState) (bet_id : Nat) (b : NBA.Bet)
    (h : s.bets.find? (fun x => x.id == bet_id) = some b) :
    (NBA.settle_bet s bet_id ("push")).1.bankroll = s.bankroll + b.stake := by
  unfold NBA.settle_bet
  rw [h]
  simp

theorem place_bet_bankroll (s : NBA.BotState) (home_team away_team bet_type : String)
    (odds stake true_probability market_probability edge : ℚ) (match_date : Option String) :
    (NBA.place_bet s home_team away_team bet_type odds stake true_probability
      market_probability edge match_date).1.bankroll = s.bankroll - stake := by
  simp [NBA.place_bet, NBA.add_bet]

theorem place_bet_find (s : NBA.BotState) (home_team away_team bet_type : String)
    (odds stake true_probability market_probability edge : ℚ) (match_date : Option String)
    (hfresh : ∀ bb ∈ s.bets, bb.id ≠ s.next_id) :
    (NBA.place_bet s home_team away_team bet_type odds stake true_probability
        market_probability edge match_date).1.bets.find?
      (fun x => x.id == (NBA.place_bet s home_team away_team bet_type odds stake
        true_probability market_probability edge match_date).2)
    = some {
        id := s.next_id
        home_team := home_team
        away_team := away_team
        bet_type := bet_type
        odds := odds
        stake := stake
        true_probability := true_probability
        market_probability := market_probability
        edge := edge
        result := none
        profit_loss := none
        match_date := match_date } := by
  have hnone : s.bets.find? (fun x => x.id == s.next_id) = none := by
    rw [List.find?_eq_none]
    intro x hx
    simpa using hfresh x hx
  simp only [NBA.place_bet, NBA.add_bet]
  rw [List.find?_append, hnone]
  simp

/-- C10: place_bet deducts exactly the stake; settling a stored bet changes
the bankroll by stake times odds on a win, by zero on a loss and by the
stake on a push; hence over a placement followed by its settlement the net
bankroll change is stake times (odds minus one) on a win, minus the stake on
a loss, and zero on a push. -/
theorem c10_bankroll_accounting :
    (∀ (s : NBA.BotState) (home_team away_team bet_type : String)
        (odds stake true_probability market_probability edge : ℚ)
        (match_date : Option String),
      (NBA.place_bet s home_team away_team bet_type odds stake true_probability
        market_probability edge match_date).1.bankroll = s.bankroll - stake) ∧
    (∀ (s : NBA.BotState) (bet_id : Nat) (b : NBA.Bet),
      s.bets.find? (fun x => x.id == bet_id) = some b →
      (NBA.settle_bet s bet_id ("win")).1.bankroll = s.bankroll + b.stake * b.odds ∧
      (NBA.settle_bet s bet_id ("loss")).1.bankroll = s.bankroll ∧
      (NBA.settle_bet s bet_id ("push")).1.bankroll = s.bankroll + b.stake) ∧
    (∀ (s : NBA.BotState) (home_team away_team bet_type : String)
        (odds stake true_probability market_probability edge : ℚ)
        (match_date : Option String),
      (∀ bb ∈ s.bets, bb.id ≠ s.next_id) →
      ((NBA.settle_bet
          (NBA.place_bet s home_team away_team bet_type odds stake true_probability
            market_probability edge match_date).1
          (NBA.place_bet s home_team away_team bet_type odds stake true_probability
            market_probability edge match_date).2 ("win")).1.bankroll
        = s.bankroll + stake * (odds - 1) ∧
      (NBA.settle_bet
          (NBA.place_bet s home_team away_team bet_type odds stake true_probability
            market_probability edge match_date).1
          (NBA.place_bet s home_team away_team bet_type odds stake true_probability
            market_probability edge match_date).2 ("loss")).1.bankroll
        = s.bankroll - stake ∧
      (NBA.settle_bet
          (NBA.place_bet s home_team away_team bet_type odds stake true_probability
            market_probability edge match_date).1
          (NBA.place_bet s home_team away_team bet_type odds stake true_probability
            market_probability edge match_date).2 ("push")).1.bankroll
        = s.bankroll)) := by
  refine ⟨place_bet_bankroll, ?_, ?_⟩
  · intro s bet_id b h
    exact ⟨settle_found_win s bet_id b h, settle_found_loss s bet_id b h,
      settle_found_push s bet_id b h⟩
  · intro s home_team away_team bet_type odds stake true_probability market_probability
      edge match_date hfresh
    have hf := place_bet_find s home_team away_team bet_type odds stake true_probability
      market_probability edge match_date hfresh
    have hpb := place_bet_bankroll s home_team away_team bet_type odds stake
      true_probability market_probability edge match_date
    refine ⟨?_, ?_, ?_⟩
    · rw [settle_found_win _ _ _ hf, hpb]
      ring
    · rw [settle_found_loss _ _ _ hf, hpb]
    · rw [settle_found_push _ _ _ hf, hpb]
      ring

/-- C10 witness: a full lifecycle at concrete values: bankroll 1000, stake
50, odds 2; placement leaves 950 and a winning settlement returns
1000 + 50. -/
theorem c10_witness :
    (∀ bb ∈ ([] : List NBA.Bet), bb.id ≠ 1) ∧
    ((NBA.settle_bet
        (NBA.place_bet { bankroll := 1000, bets := [], next_id := 1 }
          ("AAA") ("BBB") ("home") 2 50 60 55 5 none).1
        (NBA.place_bet { bankroll := 1000, bets := [], next_id := 1 }
          ("AAA") ("BBB") ("home") 2 50 60 55 5 none).2 ("win")).1.bankroll
      = (1000 : ℚ) + 50 * (2 - 1)) :=
  ⟨fun bb hbb => absurd hbb (List.not_mem_nil bb),
    (c10_bankroll_accounting.2.2 { bankroll := 1000, bets := [], next_id := 1 }
      ("AAA") ("BBB") ("home") 2 50 60 55 5 none
      (fun bb hbb => absurd hbb (List.not_mem_nil bb))).1⟩
